import Mathlib

/-!
Shallow embedding of the session-controller logic of `src/main.py`
(a Kivy YouTube downloader).  The embedded pieces are:

* `format_size`-style byte-count formatting (`formatSize`),
* URL validation (`validateUrl`, modelling `urlparse`'s netloc extraction
  followed by the substring membership test of `validate_url`),
* the control-state of the `YouTubeDownloader` widget (`DState`) with the
  control operations `start_download`, `on_pause_resume_click`,
  `_confirm_cancel`, `_handle_cancel_action`, `_reset_download_state`,
* the pause/cancel checkpoint logic of `progress_hook`
  (`progressHookControl`) and the worker's exception epilogue
  (`workerEpilogue`),
* the partial-file purge `_cleanup_part_files` (`cleanupPartFiles`) over an
  explicit directory listing with a per-file deletion-failure oracle,
* the event trace of the worker `download_video` up to the bulk transfer
  call (`downloadVideoTrace`).

Side effects that the code performs (spawning the worker thread, scheduling
the cleanup, notification updates) are returned as explicit `Action` lists.
-/

namespace YtDlApp

/-! ### Character/string helpers (Python `str` operations over `List Char`) -/

/-- ASCII whitespace as stripped by Python `str.strip()`. -/
def isSpaceChar (c : Char) : Bool :=
  c == ' ' || c == '\t' || c == '\n' || c == '\r' || c == '\x0b' || c == '\x0c'

/-- `leadsWith needle hay`: `hay` starts with `needle`. -/
def leadsWith : List Char → List Char → Bool
  | [], _ => true
  | _ :: _, [] => false
  | a :: as, b :: bs => a == b && leadsWith as bs

/-- `occursIn needle hay`: `needle` occurs as a contiguous substring of
`hay` (Python `needle in hay`). -/
def occursIn (needle : List Char) : List Char → Bool
  | [] => needle.isEmpty
  | b :: bs => leadsWith needle (b :: bs) || occursIn needle bs

/-- `endsIn t hay`: `hay` ends with `t`. -/
def endsIn (t hay : List Char) : Bool :=
  leadsWith t.reverse hay.reverse

/-- `occursIn` on `String`s (Python `needle in hay`). -/
def strContains (needle hay : String) : Bool :=
  occursIn needle.data hay.data

/-- Python `str.lower()` (ASCII-faithful). -/
def lowerStr (s : String) : String :=
  String.mk (s.data.map Char.toLower)

/-- Python slicing `s[:n]`. -/
def takeStr (n : ℕ) (s : String) : String :=
  String.mk (s.data.take n)

/-! ### `format_size` (src/main.py lines 182-194)

Python formats `b / 1024` etc. with `:.1f` / `:.2f`.  For every divisor a
power of two and every dividend below `2^53` the IEEE double holds the
quotient exactly, so the printed digits are exactly the rational quotient
rounded to the requested number of decimals with ties to even; that is what
`roundHalfEvenN` computes on the value scaled by `10^decimals`. -/

/-- The decimal digit character for `n % 10`. -/
def digitChar (n : ℕ) : Char := Char.ofNat (48 + n % 10)

/-- Fuel-driven decimal digits of `n` (most significant first); fuel
`n + 1` always suffices. -/
def natDigitsAux : ℕ → ℕ → List Char
  | 0, _ => []
  | fuel + 1, n =>
    if n < 10 then [digitChar n]
    else natDigitsAux fuel (n / 10) ++ [digitChar (n % 10)]

/-- Decimal rendering of a natural number. -/
def natToStr (n : ℕ) : String := String.mk (natDigitsAux (n + 1) n)

/-- Round `num / den` (with `den > 0`) to the nearest integer, ties to
even — the rounding used by Python float formatting. -/
def roundHalfEvenN (num den : ℕ) : ℕ :=
  let q := num / den
  let r := num % den
  if 2 * r < den then q
  else if den < 2 * r then q + 1
  else if q % 2 = 0 then q else q + 1

/-- Render `scaled / 10` with exactly one decimal digit (`:.1f`). -/
def renderFixed1 (scaled : ℕ) : String :=
  natToStr (scaled / 10) ++ "." ++ natToStr (scaled % 10)

/-- Render `scaled / 100` with exactly two decimal digits (`:.2f`). -/
def renderFixed2 (scaled : ℕ) : String :=
  natToStr (scaled / 100) ++ "." ++ natToStr (scaled / 10 % 10) ++ natToStr (scaled % 10)

/-- `format_size(bytes_count)` from src/main.py. -/
def formatSize (b : ℤ) : String :=
  if b ≤ 0 then "0 KB"
  else if b < 1024 * 1024 then
    renderFixed1 (roundHalfEvenN (b.toNat * 10) 1024) ++ " KB"
  else if b < 1024 * 1024 * 1024 then
    renderFixed1 (roundHalfEvenN (b.toNat * 10) (1024 * 1024)) ++ " MB"
  else
    renderFixed2 (roundHalfEvenN (b.toNat * 100) (1024 * 1024 * 1024)) ++ " GB"

/-! ### URL validation (src/main.py lines 875-883) -/

/-- Characters allowed after the first letter of a URL scheme. -/
def isSchemeTailChar (c : Char) : Bool :=
  c.isAlpha || c.isDigit || c == '+' || c == '-' || c == '.'

/-- `urlparse` scheme splitting: if the text up to the first `:` is a valid
scheme (a letter followed by scheme characters), the remainder after the
`:` is returned, otherwise the input is unchanged. -/
def afterScheme (cs : List Char) : List Char :=
  match cs.findIdx? (fun c => c == ':') with
  | none => cs
  | some i =>
    match cs.take i with
    | [] => cs
    | c0 :: rest =>
      if c0.isAlpha && rest.all isSchemeTailChar then cs.drop (i + 1) else cs

/-- `urlparse(url).netloc`: present only when (after the scheme) the text
starts with `//`; it then extends to the next `/`, `?` or `#`. -/
def netlocOf (cs : List Char) : List Char :=
  match afterScheme cs with
  | '/' :: '/' :: body => body.takeWhile (fun c => c != '/' && c != '?' && c != '#')
  | _ => []

/-- `YouTubeDownloader.validate_url`: blank strings are rejected, otherwise
the parsed netloc must contain `youtube.com` or `youtu.be` as a substring.
(`urlparse` on a `str` does not raise, so the `except` branch is dead.) -/
def validateUrl (url : String) : Bool :=
  if url.data.all isSpaceChar then false
  else
    occursIn "youtube.com".data (netlocOf url.data) ||
      occursIn "youtu.be".data (netlocOf url.data)

/-! ### The widget control state and operations -/

/-- The session-control fields of the `YouTubeDownloader` widget.
`pauseEventSet` is `self._pause_event.is_set()` (set = gate open);
rendering-only properties (quality selector, audio toggle) that no modelled
operation touches are omitted. -/
structure DState where
  urlText : String
  isLoading : Bool
  isPaused : Bool
  errorMessage : String
  successMessage : String
  downloadProgress : ℚ
  downloadSize : String
  currentItem : String
  totalItems : ℕ
  cancelFlag : Bool
  pauseEventSet : Bool
  lastTotal : ℤ
  postprocessing : Bool
  notifHelper : Bool
  currentOutputPath : Option String
  deriving DecidableEq

/-- Externally visible side effects of the control operations. -/
inductive Action where
  | spawnThread
  | dismissPopup
  | notifyUpdate (paused : Bool)
  | notifyStopForeground
  | scheduleCleanup
  deriving DecidableEq

/-- `YouTubeDownloader._reset_download_state`. -/
def resetDownloadState (s : DState) : DState :=
  { s with
    isLoading := false, isPaused := false, downloadProgress := 0,
    downloadSize := "", currentItem := "", errorMessage := "",
    successMessage := "", pauseEventSet := true, postprocessing := false,
    urlText := "" }

/-- `YouTubeDownloader.start_download`: clears the messages, validates the
URL (rejecting with the validation error message), otherwise resets the
session fields and spawns the worker thread. -/
def startDownload (s : DState) : DState × List Action :=
  let s0 := { s with errorMessage := "", successMessage := "" }
  if !validateUrl s0.urlText then
    ({ s0 with errorMessage := "Please enter a valid YouTube URL" }, [])
  else
    ({ s0 with
       cancelFlag := false, pauseEventSet := true, lastTotal := 0,
       isLoading := true, isPaused := false, downloadProgress := 0,
       downloadSize := "", totalItems := 0 },
     [Action.spawnThread])

/-- `YouTubeDownloader.on_pause_resume_click`: a toggle.  Paused →
resume (open the gate); otherwise → pause (close the gate).  The
notification update is emitted only when the helper exists. -/
def onPauseResumeClick (s : DState) : DState × List Action :=
  if s.isPaused then
    ({ s with isPaused := false, pauseEventSet := true },
     if s.notifHelper then [Action.notifyUpdate false] else [])
  else
    ({ s with isPaused := true, pauseEventSet := false },
     if s.notifHelper then [Action.notifyUpdate true] else [])

/-- `YouTubeDownloader._confirm_cancel`: dismisses the popup, raises the
cancel flag, opens the pause gate, resets the download state, stops the
foreground notification when present, and schedules the part-file
cleanup. -/
def confirmCancel (s : DState) : DState × List Action :=
  let s1 := { s with cancelFlag := true, pauseEventSet := true }
  let s2 := resetDownloadState s1
  (s2, Action.dismissPopup ::
       ((if s.notifHelper then [Action.notifyStopForeground] else []) ++
        [Action.scheduleCleanup]))

/-- `YouTubeDownloader._handle_cancel_action` (notification cancel button):
a no-op unless a download is loading, otherwise the same cancel sequence as
`_confirm_cancel` without a popup. -/
def handleCancelAction (s : DState) : DState × List Action :=
  if !s.isLoading then (s, [])
  else
    let s1 := { s with cancelFlag := true, pauseEventSet := true }
    let s2 := resetDownloadState s1
    (s2, (if s.notifHelper then [Action.notifyStopForeground] else []) ++
         [Action.scheduleCleanup])

/-! ### The worker checkpoint and epilogue -/

/-- Outcome of the pause/cancel checkpoint at the top of `progress_hook`. -/
inductive HookOutcome where
  | cancelled
  | blocked
  | proceed
  deriving DecidableEq

/-- The control prefix of `progress_hook`: a raised cancel flag raises the
distinguished `DownloadCancelled` signal (also from inside the pause loop);
with the gate closed and no cancel the hook waits in 0.2 s intervals (it
stays `blocked` as long as neither flag changes); otherwise the sample is
processed. -/
def progressHookControl (cancelFlag pauseEventSet : Bool) : HookOutcome :=
  if cancelFlag then HookOutcome.cancelled
  else if !pauseEventSet then HookOutcome.blocked
  else HookOutcome.proceed

/-- How the worker `download_video` terminates. -/
inductive WorkerResult where
  | success
  | cancelledSignal
  | runtimeErr (msg : String)
  | downloadErr (msg : String)
  | unexpected (tyName msg : String)
  deriving DecidableEq

/-- UI mutations the worker schedules on its way out. -/
inductive WorkerUiAction where
  | scheduleError (msg : String)
  | scheduleSuccess
  deriving DecidableEq

/-- The substring-based classification of `yt_dlp.utils.DownloadError`
messages in `download_video`. -/
def classifyDownloadError (msg : String) : String :=
  if strContains "Video unavailable" msg then "Video is unavailable or private"
  else if strContains "No video formats" msg then
    "Selected quality not available for this video"
  else if strContains "Sign in" msg || strContains "login" (lowerStr msg) then
    "This video requires login — cannot download"
  else takeStr 80 msg

/-- The exception epilogue of `download_video`: which UI mutations are
scheduled for each worker outcome.  `DownloadCancelled` schedules nothing;
errors are suppressed when the cancel flag is up (except the
ffmpeg-missing `RuntimeError`, whose handler does not consult the flag). -/
def workerEpilogue (cancelFlag : Bool) (r : WorkerResult) : List WorkerUiAction :=
  match r with
  | WorkerResult.success =>
      if cancelFlag then [] else [WorkerUiAction.scheduleSuccess]
  | WorkerResult.cancelledSignal => []
  | WorkerResult.runtimeErr m => [WorkerUiAction.scheduleError m]
  | WorkerResult.downloadErr m =>
      if cancelFlag then []
      else [WorkerUiAction.scheduleError (classifyDownloadError m)]
  | WorkerResult.unexpected ty m =>
      if cancelFlag then []
      else [WorkerUiAction.scheduleError (ty ++ ": " ++ takeStr 60 m)]

/-! ### `_cleanup_part_files` (src/main.py lines 1066-1092)

The directory is a list of file names; `fails f = true` means `os.remove`
raises for `f` (the failure is logged and the scan continues).  `glob`
with a `*`-pattern never matches names starting with a dot. -/

/-- Pattern `*.part`. -/
def matchesPart (f : String) : Bool :=
  !leadsWith ['.'] f.data && endsIn ".part".data f.data

/-- Pattern `*.ytdl`. -/
def matchesYtdl (f : String) : Bool :=
  !leadsWith ['.'] f.data && endsIn ".ytdl".data f.data

/-- Pattern `*.part-Frag*`. -/
def matchesFrag (f : String) : Bool :=
  !leadsWith ['.'] f.data && occursIn ".part-Frag".data f.data

/-- A name matched by any of the three glob patterns. -/
def matchesAnyPartFile (f : String) : Bool :=
  matchesPart f || matchesYtdl f || matchesFrag f

/-- One `for f in glob.glob(pattern)` pass: returns the directory after the
pass and the names successfully deleted in it. -/
def globDelete (fails : String → Bool) (fs : List String) (p : String → Bool) :
    List String × List String :=
  (fs.filter (fun f => !(p f && !fails f)),
   (fs.filter p).filter (fun f => !fails f))

/-- `_cleanup_part_files`: early return when no output path is recorded,
otherwise the three glob passes in order.  Result: Python return value
(always `None` — the Python function has no `return value` statement),
the remaining directory, and the `deleted` list whose length is logged. -/
def cleanupPartFiles (fails : String → Bool) (outPath : Option String)
    (fs : List String) : Option ℕ × List String × List String :=
  match outPath with
  | none => (none, fs, [])
  | some _ =>
    let r1 := globDelete fails fs matchesPart
    let r2 := globDelete fails r1.1 matchesYtdl
    let r3 := globDelete fails r2.1 matchesFrag
    (none, r3.1, r1.2 ++ r2.2 ++ r3.2)

/-! ### The worker trace of `download_video` up to the bulk transfer -/

/-- Observable steps of `download_video` from entry to the
`ydl.download(...)` call (the completion handling afterwards is
`workerEpilogue`). -/
inductive WEvent where
  | notifStartForeground
  | scheduleSuccessMsg
  | extractInfo
  | scheduleTotalItems (n : ℕ)
  | notifMerging
  | startBulkDownload
  deriving DecidableEq

/-- `total_items` as computed from the `extract_info` result: the entry
count when the info has `entries`, else 1. -/
def totalFromInfo (entries : Option ℕ) : ℕ :=
  match entries with
  | some n => n
  | none => 1

/-- The ordered events of `download_video` up to `ydl.download`:
foreground notification (helper present), the playlist success message
(playlist-shaped URL), metadata extraction, then — unless the cancel flag
was observed right after extraction — the scheduling of the `total_items`
update, the Android merge notification, and the bulk download call. -/
def downloadVideoTrace (notifHelper playlistUrl android audioOnly
    cancelAfterExtract : Bool) (entries : Option ℕ) : List WEvent :=
  (if notifHelper then [WEvent.notifStartForeground] else []) ++
  (if playlistUrl then [WEvent.scheduleSuccessMsg] else []) ++
  [WEvent.extractInfo] ++
  (if cancelAfterExtract then []
   else
     [WEvent.scheduleTotalItems (totalFromInfo entries)] ++
     (if !audioOnly && android && notifHelper then [WEvent.notifMerging] else []) ++
     [WEvent.startBulkDownload])

/-- The UI/worker pause consistency invariant: the widget shows the paused
state exactly when the worker's pause gate is closed. -/
def pauseGateInv (s : DState) : Prop :=
  s.isPaused = !s.pauseEventSet

instance (s : DState) : Decidable (pauseGateInv s) := by
  unfold pauseGateInv; infer_instance

/-! ### Sample states -/

/-- An idle widget with a valid URL typed in. -/
def sampleIdle : DState :=
  { urlText := "https://youtu.be/abc123", isLoading := false, isPaused := false,
    errorMessage := "", successMessage := "", downloadProgress := 0,
    downloadSize := "", currentItem := "", totalItems := 0, cancelFlag := false,
    pauseEventSet := true, lastTotal := 0, postprocessing := false,
    notifHelper := false, currentOutputPath := none }

/-- A widget mid-download, currently paused. -/
def samplePausedActive : DState :=
  { sampleIdle with
    isLoading := true, isPaused := true, pauseEventSet := false,
    downloadProgress := 37, downloadSize := "10.0 MB / 27.0 MB",
    currentItem := "video.mp4", totalItems := 1,
    currentOutputPath := some "/home/user/Downloads/YouTubeDownloader/Video" }

/-! ### Claim theorems -/

/-- Claim C5: the size formatter uses the fixed thresholds — byte counts of
at most 0 render as `0 KB`, positive counts below 1,048,576 render in KB
with one decimal, counts below 1,073,741,824 in MB with one decimal, larger
counts in GB with two decimals — and the boundary inputs 0, 1023, 1024,
1048575, 1048576, 1073741823, 1073741824 produce exactly the documented
strings. -/
theorem formatSize_thresholds_and_boundaries :
    (∀ n : ℕ, formatSize (-(n : ℤ)) = "0 KB") ∧
    (∀ b : ℤ, 0 < b → b < 1048576 → ∃ s, formatSize b = s ++ " KB") ∧
    (∀ b : ℤ, 1048576 ≤ b → b < 1073741824 → ∃ s, formatSize b = s ++ " MB") ∧
    (∀ b : ℤ, 1073741824 ≤ b → ∃ s, formatSize b = s ++ " GB") ∧
    formatSize 0 = "0 KB" ∧ formatSize 1023 = "1.0 KB" ∧
    formatSize 1024 = "1.0 KB" ∧ formatSize 1048575 = "1024.0 KB" ∧
    formatSize 1048576 = "1.0 MB" ∧ formatSize 1073741823 = "1024.0 MB" ∧
    formatSize 1073741824 = "1.00 GB" := by
  refine ⟨?_, ?_, ?_, ?_, ?_, ?_, ?_, ?_, ?_, ?_, ?_⟩
  · intro n
    have h : -(n : ℤ) ≤ 0 := by omega
    simp [formatSize, h]
  · intro b h1 h2
    have h : ¬ b ≤ 0 := by omega
    have h24 : b < (1048576 : ℤ) := by omega
    exact ⟨renderFixed1 (roundHalfEvenN (b.toNat * 10) 1024),
      by simp [formatSize, h, h24]⟩
  · intro b h1 h2
    have h : ¬ b ≤ 0 := by omega
    have h24 : ¬ b < (1048576 : ℤ) := by omega
    have h30 : b < (1073741824 : ℤ) := by omega
    exact ⟨renderFixed1 (roundHalfEvenN (b.toNat * 10) (1024 * 1024)),
      by simp [formatSize, h, h24, h30]⟩
  · intro b h1
    have h : ¬ b ≤ 0 := by omega
    have h24 : ¬ b < (1048576 : ℤ) := by omega
    have h30 : ¬ b < (1073741824 : ℤ) := by omega
    exact ⟨renderFixed2 (roundHalfEvenN (b.toNat * 100) (1024 * 1024 * 1024)),
      by simp [formatSize, h, h24, h30]⟩
  · decide
  · decide
  · decide
  · decide
  · decide
  · decide
  · decide

/-- Witness for C5 at a concrete input: 500000 bytes is rendered in KB. -/
theorem formatSize_thresholds_witness :
    ∃ s, formatSize 500000 = s ++ " KB" :=
  formatSize_thresholds_and_boundaries.2.1 500000 (by decide) (by decide)

/-- Claim C9: `validate_url` accepts any URL whose parsed netloc merely
contains `youtube.com` or `youtu.be` as a substring — an unrelated host
such as `notyoutube.com` or `youtube.com.evil.example` is accepted. -/
theorem validateUrl_substring_accepts_unrelated_hosts :
    validateUrl "https://notyoutube.com/watch?v=x" = true ∧
    validateUrl "https://youtube.com.evil.example/x" = true ∧
    netlocOf ("https://notyoutube.com/watch?v=x").data = "notyoutube.com".data ∧
    netlocOf ("https://youtube.com.evil.example/x").data =
      "youtube.com.evil.example".data := by
  decide

/-- Claim C7: when the URL fails validation, `start_download` sets the
validation error message immediately, performs no side effect (no worker
thread is spawned), and an idle session stays idle: the loading flag,
progress, pause flag, pause gate and cancel flag are untouched. -/
theorem invalid_url_start_rejected (s : DState)
    (hv : validateUrl s.urlText = false) (hl : s.isLoading = false)
    (hp : s.downloadProgress = 0) :
    (startDownload s).1.errorMessage = "Please enter a valid YouTube URL" ∧
    (startDownload s).2 = [] ∧
    (startDownload s).1.isLoading = false ∧
    (startDownload s).1.downloadProgress = 0 ∧
    (startDownload s).1.isPaused = s.isPaused ∧
    (startDownload s).1.pauseEventSet = s.pauseEventSet ∧
    (startDownload s).1.cancelFlag = s.cancelFlag := by
  simp [startDownload, hv, hl, hp]

/-- Witness for C7: starting with the URL `not a url` typed into an idle
widget is rejected with the validation message and no side effects. -/
theorem invalid_url_start_rejected_witness :
    (startDownload { sampleIdle with urlText := "not a url" }).1.errorMessage =
      "Please enter a valid YouTube URL" ∧
    (startDownload { sampleIdle with urlText := "not a url" }).2 = [] ∧
    (startDownload { sampleIdle with urlText := "not a url" }).1.isLoading = false ∧
    (startDownload { sampleIdle with urlText := "not a url" }).1.downloadProgress = 0 ∧
    (startDownload { sampleIdle with urlText := "not a url" }).1.isPaused =
      ({ sampleIdle with urlText := "not a url" } : DState).isPaused ∧
    (startDownload { sampleIdle with urlText := "not a url" }).1.pauseEventSet =
      ({ sampleIdle with urlText := "not a url" } : DState).pauseEventSet ∧
    (startDownload { sampleIdle with urlText := "not a url" }).1.cancelFlag =
      ({ sampleIdle with urlText := "not a url" } : DState).cancelFlag :=
  invalid_url_start_rejected { sampleIdle with urlText := "not a url" }
    (by decide) (by decide) (by decide)

/-- Counterexample to claim C1: with a session mid-download and paused,
a second `start_download` call is not rejected with a busy error — it
spawns a second worker thread and mutates the existing session's state
(the pause flag and pause gate flip, and no error message is set). -/
theorem startDownload_busy_spawns_second_worker_cex :
    samplePausedActive.isLoading = true ∧
    samplePausedActive.isPaused = true ∧
    (startDownload samplePausedActive).2 = [Action.spawnThread] ∧
    (startDownload samplePausedActive).1.errorMessage = "" ∧
    (startDownload samplePausedActive).1.isPaused = false ∧
    (startDownload samplePausedActive).1.pauseEventSet = true := by
  decide

/-- Claim C1 as amended: `start_download` contains no busy check — for
every state whose URL validates, including states with an active or paused
session, it spawns a worker thread, resets the cancel flag, opens the pause
gate, zeroes the progress and sets the loading flag; no busy error
exists. -/
theorem startDownload_no_busy_guard (s : DState)
    (hv : validateUrl s.urlText = true) :
    (startDownload s).2 = [Action.spawnThread] ∧
    (startDownload s).1.isLoading = true ∧
    (startDownload s).1.isPaused = false ∧
    (startDownload s).1.cancelFlag = false ∧
    (startDownload s).1.pauseEventSet = true ∧
    (startDownload s).1.downloadProgress = 0 ∧
    (startDownload s).1.errorMessage = "" := by
  simp [startDownload, hv]

/-- Witness for the amended C1 on the concrete paused mid-download
state. -/
theorem startDownload_no_busy_guard_witness :
    (startDownload samplePausedActive).2 = [Action.spawnThread] ∧
    (startDownload samplePausedActive).1.isLoading = true ∧
    (startDownload samplePausedActive).1.isPaused = false ∧
    (startDownload samplePausedActive).1.cancelFlag = false ∧
    (startDownload samplePausedActive).1.pauseEventSet = true ∧
    (startDownload samplePausedActive).1.downloadProgress = 0 ∧
    (startDownload samplePausedActive).1.errorMessage = "" :=
  startDownload_no_busy_guard samplePausedActive (by decide)

/-- Claim C2: cancelling while paused raises the cancel flag and opens the
pause gate, so the worker's next checkpoint observes the distinguished
cancellation signal instead of staying blocked; the worker's handler for
that signal schedules no user-visible failure message, and the cancel
operation leaves the error message empty. -/
theorem confirmCancel_while_paused_cancels_silently (s : DState)
    (hp : s.isPaused = true) (hg : s.pauseEventSet = false) :
    (confirmCancel s).1.cancelFlag = true ∧
    (confirmCancel s).1.pauseEventSet = true ∧
    progressHookControl (confirmCancel s).1.cancelFlag
      (confirmCancel s).1.pauseEventSet = HookOutcome.cancelled ∧
    workerEpilogue (confirmCancel s).1.cancelFlag WorkerResult.cancelledSignal = [] ∧
    (confirmCancel s).1.errorMessage = "" := by
  simp [confirmCancel, resetDownloadState, progressHookControl, workerEpilogue]

/-- Witness for C2 on the concrete paused mid-download state. -/
theorem confirmCancel_while_paused_witness :
    (confirmCancel samplePausedActive).1.cancelFlag = true ∧
    (confirmCancel samplePausedActive).1.pauseEventSet = true ∧
    progressHookControl (confirmCancel samplePausedActive).1.cancelFlag
      (confirmCancel samplePausedActive).1.pauseEventSet = HookOutcome.cancelled ∧
    workerEpilogue (confirmCancel samplePausedActive).1.cancelFlag
      WorkerResult.cancelledSignal = [] ∧
    (confirmCancel samplePausedActive).1.errorMessage = "" :=
  confirmCancel_while_paused_cancels_silently samplePausedActive rfl rfl

/-- Counterexample to claim C3: confirming cancel twice does not schedule
the partial-file cleanup exactly once per cancelled session —
`_confirm_cancel` schedules one cleanup per call, so two confirmations
schedule two cleanups. -/
theorem confirmCancel_twice_schedules_cleanup_twice_cex :
    ((confirmCancel samplePausedActive).2 ++
        (confirmCancel (confirmCancel samplePausedActive).1).2).countP
      (fun a => decide (a = Action.scheduleCleanup)) = 2 ∧
    ((confirmCancel samplePausedActive).2).countP
      (fun a => decide (a = Action.scheduleCleanup)) = 1 := by
  decide

/-- Claim C3 as amended: the cancel flag transition is one-way (any
confirmation leaves it true) and the state reset is idempotent, so a second
confirmation leaves the state unchanged; but `_confirm_cancel` schedules
the partial-file cleanup on every call, so only the `is_loading`-guarded
notification path `_handle_cancel_action` schedules cleanup exactly once
across two consecutive invocations. -/
theorem cancel_idempotent_state_cleanup_once (s : DState)
    (hl : s.isLoading = true) :
    (confirmCancel s).1.cancelFlag = true ∧
    (confirmCancel (confirmCancel s).1).1 = (confirmCancel s).1 ∧
    (handleCancelAction s).1 = (confirmCancel s).1 ∧
    ((handleCancelAction s).2 ++
        (handleCancelAction (handleCancelAction s).1).2).countP
      (fun a => decide (a = Action.scheduleCleanup)) = 1 := by
  refine ⟨rfl, rfl, ?_, ?_⟩
  · simp [handleCancelAction, confirmCancel, hl]
  · have h2 : (handleCancelAction s).1.isLoading = false := by
      simp [handleCancelAction, confirmCancel, resetDownloadState, hl]
    rcases hnh : s.notifHelper with _ | _ <;>
      simp [handleCancelAction, resetDownloadState, hl, h2, hnh, List.countP_cons]

/-- Witness for the amended C3 on the concrete paused mid-download
state. -/
theorem cancel_idempotent_state_cleanup_once_witness :
    (confirmCancel samplePausedActive).1.cancelFlag = true ∧
    (confirmCancel (confirmCancel samplePausedActive).1).1 =
      (confirmCancel samplePausedActive).1 ∧
    (handleCancelAction samplePausedActive).1 =
      (confirmCancel samplePausedActive).1 ∧
    ((handleCancelAction samplePausedActive).2 ++
        (handleCancelAction (handleCancelAction samplePausedActive).1).2).countP
      (fun a => decide (a = Action.scheduleCleanup)) = 1 :=
  cancel_idempotent_state_cleanup_once samplePausedActive rfl

/-- Counterexample to claim C4: the pause control is not a no-op on a
non-active session — clicking it while idle (not loading, not paused)
closes the gate and marks the session paused — and invoking it on an
already-paused session does not leave it paused but resumes it. -/
theorem pause_toggle_not_noop_cex :
    sampleIdle.isLoading = false ∧
    sampleIdle.isPaused = false ∧
    (onPauseResumeClick sampleIdle).1.isPaused = true ∧
    (onPauseResumeClick sampleIdle).1.pauseEventSet = false ∧
    samplePausedActive.isPaused = true ∧
    (onPauseResumeClick samplePausedActive).1.isPaused = false ∧
    (onPauseResumeClick samplePausedActive).1.pauseEventSet = true := by
  decide

/-- Claim C4 as amended: `on_pause_resume_click` is a single toggle rather
than idempotent Pause/Resume operations.  Invoked on a non-paused session
(active or not) it sets the pause flag and closes the gate; invoked on a
paused session it clears the flag and opens the gate; two consecutive
invocations restore the original pause flag (an involution on the pause
state, with the gate normalized to the complement of the flag). -/
theorem pause_resume_toggle_involution (s : DState) :
    ((onPauseResumeClick s).1.isPaused = !s.isPaused) ∧
    ((onPauseResumeClick s).1.pauseEventSet = s.isPaused) ∧
    ((onPauseResumeClick (onPauseResumeClick s).1).1.isPaused = s.isPaused) ∧
    ((onPauseResumeClick (onPauseResumeClick s).1).1.pauseEventSet
      = !s.isPaused) := by
  rcases h : s.isPaused with _ | _ <;> simp [onPauseResumeClick, h]

/-- Witness for the amended C4 on the concrete paused mid-download
state. -/
theorem pause_resume_toggle_involution_witness :
    ((onPauseResumeClick samplePausedActive).1.isPaused =
      !samplePausedActive.isPaused) ∧
    ((onPauseResumeClick samplePausedActive).1.pauseEventSet =
      samplePausedActive.isPaused) ∧
    ((onPauseResumeClick (onPauseResumeClick samplePausedActive).1).1.isPaused =
      samplePausedActive.isPaused) ∧
    ((onPauseResumeClick (onPauseResumeClick samplePausedActive).1).1.pauseEventSet
      = !samplePausedActive.isPaused) :=
  pause_resume_toggle_involution samplePausedActive

/-- Claim C10: every control operation re-establishes or preserves the
invariant that the UI pause flag matches the worker's pause gate
(`is_paused` is true exactly when the pause event is cleared). -/
theorem control_ops_preserve_pause_gate_invariant (s : DState)
    (h : pauseGateInv s) :
    pauseGateInv (startDownload s).1 ∧
    pauseGateInv (onPauseResumeClick s).1 ∧
    pauseGateInv (confirmCancel s).1 ∧
    pauseGateInv (handleCancelAction s).1 ∧
    pauseGateInv (resetDownloadState s) := by
  unfold pauseGateInv at h ⊢
  refine ⟨?_, ?_, ?_, ?_, ?_⟩ <;>
    simp [startDownload, onPauseResumeClick, confirmCancel, handleCancelAction,
      resetDownloadState] <;>
    split_ifs <;> simp_all

/-- Witness for C10 on the concrete idle state (which satisfies the
invariant: not paused, gate open). -/
theorem control_ops_preserve_pause_gate_invariant_witness :
    pauseGateInv (startDownload sampleIdle).1 ∧
    pauseGateInv (onPauseResumeClick sampleIdle).1 ∧
    pauseGateInv (confirmCancel sampleIdle).1 ∧
    pauseGateInv (handleCancelAction sampleIdle).1 ∧
    pauseGateInv (resetDownloadState sampleIdle) :=
  control_ops_preserve_pause_gate_invariant sampleIdle (by decide)

/-- Each glob pass with no failing deletions keeps exactly the
non-matching files and deletes exactly the matching ones. -/
theorem globDelete_noFail (fs : List String) (q : String → Bool) :
    globDelete (fun _ => false) fs q = (fs.filter fun f => !q f, fs.filter q) := by
  simp [globDelete]

/-- A file surviving a `fun f => !q f` filter does not satisfy `q`. -/
theorem mem_filter_not {q : String → Bool} {l : List String} {a : String}
    (h : a ∈ l.filter fun f => !q f) : q a = false := by
  simpa using (List.mem_filter.mp h).2

/-- Counterexample to claim C6: the purge operation does not return the
count of files it removed — on a directory holding two partial files it
removes both, yet its Python return value is `None`, not the count 2. -/
theorem cleanup_returns_none_cex :
    ((cleanupPartFiles (fun _ => false) (some "out")
        ["a.part", "b.ytdl", "video.mp4"]).2.2).length = 2 ∧
    (cleanupPartFiles (fun _ => false) (some "out")
        ["a.part", "b.ytdl", "video.mp4"]).1 = none ∧
    (cleanupPartFiles (fun _ => false) (some "out")
        ["a.part", "b.ytdl", "video.mp4"]).1 ≠ some 2 := by
  decide

/-- Claim C6 as amended: `_cleanup_part_files` logs but does not return the
number of removed files (its return value is always `None`); running it
again on the directory left clean by a fully successful run removes
nothing (and raises nothing); and a failure to delete one matching file
does not abort the rest — every matching file whose deletion does not fail
is removed. -/
theorem cleanup_idempotent_and_fault_tolerant :
    (∀ (fails : String → Bool) (op : Option String) (fs : List String),
        (cleanupPartFiles fails op fs).1 = none) ∧
    (∀ (p : String) (fs : List String),
        (cleanupPartFiles (fun _ => false) (some p)
          (cleanupPartFiles (fun _ => false) (some p) fs).2.1).2.2 = []) ∧
    (∀ (fails : String → Bool) (p : String) (fs : List String) (f : String),
        f ∈ fs → fails f = false → matchesAnyPartFile f = true →
        f ∈ (cleanupPartFiles fails (some p) fs).2.2) := by
  refine ⟨?_, ?_, ?_⟩
  · intro fails op fs
    cases op <;> rfl
  · intro p fs
    simp only [cleanupPartFiles, globDelete_noFail]
    refine List.append_eq_nil.mpr ⟨List.append_eq_nil.mpr ⟨?_, ?_⟩, ?_⟩ <;>
      · rw [List.filter_eq_nil_iff]
        intro a ha
        simp only [Bool.not_eq_true]
        exact mem_filter_not (List.mem_filter.mp (List.mem_filter.mp ha).1).1
  · intro fails p fs f hf hfail hmatch
    rcases h1 : matchesPart f with _ | _ <;>
      rcases h2 : matchesYtdl f with _ | _ <;>
        rcases h3 : matchesFrag f with _ | _ <;>
          simp [matchesAnyPartFile, h1, h2, h3] at hmatch <;>
          simp [cleanupPartFiles, globDelete, List.mem_append, List.mem_filter,
            hf, hfail, h1, h2, h3]

/-- Witness for the amended C6: a lone `a.part` with no deletion failures
is removed. -/
theorem cleanup_idempotent_witness :
    "a.part" ∈ (cleanupPartFiles (fun _ => false) (some "out") ["a.part"]).2.2 :=
  cleanup_idempotent_and_fault_tolerant.2.2 (fun _ => false) "out" ["a.part"]
    "a.part" (by decide) rfl (by decide)

/-- Claim C8: for every worker configuration, when metadata resolution
reports a playlist with `n` entries the trace of `download_video` schedules
the `total_items := n` update strictly after metadata extraction and
strictly before the call that starts the bulk transfer (no bulk-transfer
event precedes the scheduling). -/
theorem playlist_total_scheduled_before_bulk_download
    (nh ipl android audioOnly : Bool) (n : ℕ) :
    ∃ l1 l2,
      downloadVideoTrace nh ipl android audioOnly false (some n) =
        l1 ++ WEvent.scheduleTotalItems n :: l2 ∧
      WEvent.extractInfo ∈ l1 ∧
      WEvent.startBulkDownload ∉ l1 ∧
      WEvent.startBulkDownload ∈ l2 := by
  refine ⟨(if nh then [WEvent.notifStartForeground] else []) ++
          (if ipl then [WEvent.scheduleSuccessMsg] else []) ++
          [WEvent.extractInfo],
          (if !audioOnly && android && nh then [WEvent.notifMerging] else []) ++
          [WEvent.startBulkDownload], ?_, ?_, ?_, ?_⟩ <;>
    rcases nh with _ | _ <;> rcases ipl with _ | _ <;>
      rcases android with _ | _ <;> rcases audioOnly with _ | _ <;>
      simp [downloadVideoTrace, totalFromInfo]

/-- Witness for C8: a desktop worker without a notification helper, on a
playlist-shaped URL whose metadata reports 5 entries. -/
theorem playlist_total_scheduled_witness :
    ∃ l1 l2,
      downloadVideoTrace false true false false false (some 5) =
        l1 ++ WEvent.scheduleTotalItems 5 :: l2 ∧
      WEvent.extractInfo ∈ l1 ∧
      WEvent.startBulkDownload ∉ l1 ∧
      WEvent.startBulkDownload ∈ l2 :=
  playlist_total_scheduled_before_bulk_download false true false false 5

end YtDlApp
